import Mathlib

/-!
Shallow embedding of `src/proxy.py` (a dual-mode HTTP/SOCKS5 proxy built on
tornado).  Bytes are modelled as `Nat` values (the source's `common.ord`, a
py2/py3 compatibility shim living outside `src/`, turns a byte into its
integer value; our byte lists are already integer lists, so it is the
identity here).  A stream read `read_bytes n` consumes the first `n` bytes of
an input list; a write appends to a `written` list.  A tornado coroutine
returns a Python value (`False` on the explicit `raise gen.Return(False)`
paths, `None` when it falls off the end) or propagates an exception
(`struct.error` from `struct.unpack`); `PyRet` records which of the three
happened.
-/

/-- Python truthiness of a coroutine result: `False` and `None` are falsy. -/
inductive PyRet where
  | vFalse
  | vNone
  | vExc
deriving DecidableEq, Repr

/-- A decoded destination address: `socket.inet_ntoa` / `common.inet_ntop`
return strings, the domain-name branch keeps the raw name bytes. -/
inductive DestAddr where
  | str (s : String)
  | bytes (b : List Nat)
deriving DecidableEq, Repr

/-- `tornado.iostream.read_bytes n`: consume exactly the first `n` bytes of
the pending input, `none` when the input has fewer than `n` bytes (the
coroutine would stay suspended waiting for more). -/
def readBytes (n : Nat) (s : List Nat) : Option (List Nat × List Nat) :=
  if n ≤ s.length then some (s.take n, s.drop n) else none

/-- `struct.unpack("!H", buf)`: big-endian 16-bit unpack.  The format
requires the buffer to hold exactly 2 bytes; any other length raises
`struct.error`, modelled as `none`. -/
def unpackH : List Nat → Option Nat
  | [a, b] => some (a * 256 + b)
  | _ => none

/-- `socket.inet_ntoa`: dotted-quad rendering of 4 bytes. -/
def inet_ntoa (b : List Nat) : String :=
  String.intercalate "." (b.map toString)

/-- Modelled from the spec: `common.inet_ntop(socket.AF_INET6, bytes)` — the
`common` module is not under `src/`; the spec says the 16 address bytes are
rendered "as a colon-hex address".  Rendered as eight colon-separated
hexadecimal 16-bit groups. -/
def inet_ntop6 (b : List Nat) : String :=
  String.intercalate ":"
    ((List.range 8).map (fun i =>
      String.mk (Nat.toDigits 16 (b.getD (2 * i) 0 * 256 + b.getD (2 * i + 1) 0))))

/-- `StreamChannel.socks5_auth` (src/proxy.py:150-179), as a function of the
bytes returned by the single `read_bytes(257, partial=True)` call.  Returns
the coroutine's truth value together with the bytes written to the client:
fewer than 3 bytes, version ≠ 5 or method count < 1 fail with no reply; on
success the servers writes exactly `b'\x05\00'` (bytes 05 00).  The scan for
the no-auth method iterates over `data[2:]` — every byte after the first
two, not just the `n_methods` advertised ones. -/
def socks5_auth : List Nat → Bool × List Nat
  | v :: n :: m :: rest =>
    if v ≠ 5 then (false, [])
    else if n < 1 then (false, [])
    else if (m :: rest).any (fun x => x == 0) then (true, [5, 0])
    else (false, [])
  | _ => (false, [])

/-- The fixed SOCKS5 success reply `b'\x05\x00\x00\x01\x00\x00\x00\x00\x10\x10'`
written at src/proxy.py:238-239. -/
def successReply : List Nat := [5, 0, 0, 1, 0, 0, 0, 0, 16, 16]

/-- The UDP_ASSOCIATE rejection reply written at src/proxy.py:205-206. -/
def udpReply : List Nat := [5, 7, 0, 1, 0, 0, 0, 0, 16, 16]

/-- The BIND rejection reply written at src/proxy.py:210. -/
def bindReply : List Nat := [5, 7, 0, 3, 0, 255, 255]

/-- Outcome of one run of `StreamChannel.socks5_request`: the bytes written
to the client stream, the local variables `dest_addr` / `dest_port` at the
point the coroutine finished (still `none` when never assigned), and how the
coroutine finished. -/
structure ReqOutcome where
  written : List Nat
  dest_addr : Option DestAddr
  dest_port : Option Nat
  ret : PyRet
deriving DecidableEq, Repr

/-- `StreamChannel.socks5_request` (src/proxy.py:181-239) on the pending
input bytes.  Follows the source line by line: read 4 header bytes; reject
version ≠ 5 silently; UDP_ASSOCIATE and BIND write their fixed rejection
replies and return `False`; other non-CONNECT commands are rejected
silently.  For CONNECT the address type is `ord(data[3]) & 0xF`.  The IPv4
branch computes the port as `struct.unpack("!H", data[:4])` — a 4-byte
buffer — so it raises `struct.error` before any reply is written.  The IPv6
and domain branches unpack the correct 2-byte slice.  A domain length byte
of 0 or above 128 is rejected.  When no address-type branch matches, the
code falls through with `dest_addr = dest_port = None` and still writes the
success reply.  Every non-exception CONNECT path ends by writing the success
reply and falling off the end of the coroutine (truth value `None`). -/
def socks5_request : List Nat → Option ReqOutcome
  | v :: cmd :: _rsv :: atyp :: rest =>
    if v ≠ 5 then some ⟨[], none, none, .vFalse⟩
    else if cmd = 3 then some ⟨udpReply, none, none, .vFalse⟩
    else if cmd = 2 then some ⟨bindReply, none, none, .vFalse⟩
    else if cmd ≠ 1 then some ⟨[], none, none, .vFalse⟩
    else
      if atyp &&& 15 = 1 then
        match readBytes 6 rest with
        | none => none
        | some (data, _) =>
          match unpackH (data.take 4) with
          | none => some ⟨[], some (.str (inet_ntoa (data.take 4))), none, .vExc⟩
          | some p =>
            some ⟨successReply, some (.str (inet_ntoa (data.take 4))), some p, .vNone⟩
      else if atyp &&& 15 = 4 then
        match readBytes 18 rest with
        | none => none
        | some (data, _) =>
          match unpackH (data.drop 16) with
          | none => some ⟨[], some (.str (inet_ntop6 (data.take 16))), none, .vExc⟩
          | some p =>
            some ⟨successReply, some (.str (inet_ntop6 (data.take 16))), some p, .vNone⟩
      else if atyp &&& 15 = 3 then
        match rest with
        | [] => none
        | l :: rest2 =>
          if l = 0 ∨ 128 < l then some ⟨[], none, none, .vFalse⟩
          else
            match readBytes (l + 2) rest2 with
            | none => none
            | some (data, _) =>
              match unpackH (data.drop l) with
              | none => some ⟨[], some (.bytes (data.take l)), none, .vExc⟩
              | some p => some ⟨successReply, some (.bytes (data.take l)), some p, .vNone⟩
      else some ⟨successReply, none, none, .vNone⟩
  | _ => none

/-- Observable outcome of `StreamChannel.start` (src/proxy.py:138-148):
bytes written to the client, whether `socks5_request` was entered (i.e.
whether any bytes beyond the method-selection read were read), whether
`destroy()` ran (closing the local stream; `remote_stream` is always `None`
so only the local stream exists to close), whether a remote/upstream stream
was ever opened, and whether an exception escaped the coroutine. -/
structure StartOutcome where
  written : List Nat
  requestEntered : Bool
  destroyed : Bool
  remoteOpened : Bool
  exc : Bool
deriving DecidableEq, Repr

/-- `StreamChannel.start` (src/proxy.py:138-148) driving one connection:
run `socks5_auth` on the method-selection bytes; on a falsy result destroy
and stop.  Otherwise run `socks5_request` on the request bytes; `False` and
`None` are both falsy, so `destroy()` runs in either case (and the final
`self.destroy()` would run anyway).  An exception from `socks5_request`
propagates out of `start` before any `destroy()` call.  `StreamChannel`
never constructs a client connection or assigns `remote_stream`, so
`remoteOpened` is `false` on every path. -/
def start (authData reqData : List Nat) : StartOutcome :=
  let a := socks5_auth authData
  if a.1 = false then ⟨a.2, false, true, false, false⟩
  else
    match socks5_request reqData with
    | none => ⟨a.2, true, false, false, false⟩
    | some r =>
      match r.ret with
      | .vExc => ⟨a.2 ++ r.written, true, false, false, true⟩
      | .vFalse => ⟨a.2 ++ r.written, true, true, false, false⟩
      | .vNone => ⟨a.2 ++ r.written, true, true, false, false⟩

/-- One tornado `IOStream` as the tunnel close handlers observe it: whether
it is closed and the bytes written to it so far. -/
structure TStream where
  closed : Bool
  written : List Nat
deriving DecidableEq, Repr

/-- The pair of streams of an established HTTP CONNECT tunnel. -/
structure Tunnel where
  client : TStream
  upstream : TStream
deriving DecidableEq, Repr

/-- `IOStream.close()`. -/
def sclose (s : TStream) : TStream := { s with closed := true }

/-- `IOStream.write(data)`. -/
def swrite (s : TStream) (d : List Nat) : TStream := { s with written := s.written ++ d }

/-- Python truthiness of the `data` argument of the close callbacks:
`None` and the empty byte string `b''` are falsy. -/
def truthy : Option (List Nat) → Bool
  | none => false
  | some d => d ≠ []

/-- `HttpProxyHandler.client_close` (src/proxy.py:102-108): invoked when the
client stream terminates, with any trailing bytes already read.  If the
upstream is already closed, do nothing; otherwise write the trailing data
(when truthy) to the upstream, then close it. -/
def client_close (t : Tunnel) (data : Option (List Nat)) : Tunnel :=
  if t.upstream.closed then t
  else if truthy data then
    { t with upstream := sclose (swrite t.upstream (data.getD [])) }
  else { t with upstream := sclose t.upstream }

/-- `HttpProxyHandler.upstream_close` (src/proxy.py:110-116): the mirror
image, closing the client when the upstream terminates. -/
def upstream_close (t : Tunnel) (data : Option (List Nat)) : Tunnel :=
  if t.client.closed then t
  else if truthy data then
    { t with client := sclose (swrite t.client (data.getD [])) }
  else { t with client := sclose t.client }

/-- Outcome of `HttpProxyHandler.start_tunnel` for the client: the bytes
(as a string) written to the client stream, whether the two relay loops were
registered, and whether an exception escaped the callback. -/
structure HttpTunnelOutcome where
  clientWritten : String
  tunnelStarted : Bool
  exc : Bool
deriving DecidableEq, Repr

/-- `HttpProxyHandler.start_tunnel` (src/proxy.py:118-123), as a function of
the resolved connect future.  Its first statement is
`self.upstream = future.result()`: when the connect failed, `result()`
re-raises the connect error and the callback aborts — nothing is written to
the client and no relay loop is registered.  On success it registers both
`read_until_close` relay loops and writes the fixed 200 reply. -/
def start_tunnel : Except String Unit → HttpTunnelOutcome
  | .error _ => ⟨"", false, true⟩
  | .ok _ => ⟨"HTTP/1.0 200 Connection established\r\n\r\n", true, false⟩

theorem readBytes_append (n : Nat) (l1 l2 : List Nat) (h : l1.length = n) :
    readBytes n (l1 ++ l2) = some (l1, l2) := by
  subst h
  rw [readBytes, if_pos (by simp), List.take_left, List.drop_left]

theorem socks5_auth_success (n m : Nat) (ms : List Nat) (hn : 1 ≤ n) (hz : 0 ∈ m :: ms) :
    socks5_auth (5 :: n :: m :: ms) = (true, [5, 0]) := by
  have hany : ((m :: ms).any fun x => x == 0) = true :=
    List.any_eq_true.mpr ⟨0, hz, by simp⟩
  have hn' : ¬ n < 1 := by omega
  simp only [socks5_auth]
  rw [if_neg (by decide), if_neg hn', if_pos hany]

theorem socks5_auth_failure (data : List Nat)
    (h : data.length < 3 ∨ data.getD 0 0 ≠ 5 ∨ data.getD 1 0 < 1 ∨ 0 ∉ data.drop 2) :
    socks5_auth data = (false, []) := by
  match data with
  | [] => rfl
  | [v] => rfl
  | [v, n] => rfl
  | v :: n :: m :: ms =>
    rcases h with h | h | h | h
    · exfalso
      have : 3 ≤ (v :: n :: m :: ms).length := by
        simp only [List.length_cons]
        omega
      omega
    · rw [show (v :: n :: m :: ms).getD 0 0 = v from rfl] at h
      simp only [socks5_auth]
      rw [if_pos h]
    · rw [show (v :: n :: m :: ms).getD 1 0 = n from rfl] at h
      simp only [socks5_auth]
      by_cases hv : v ≠ 5
      · rw [if_pos hv]
      · rw [if_neg hv, if_pos h]
    · rw [show (v :: n :: m :: ms).drop 2 = m :: ms from rfl] at h
      have hany : ¬ (((m :: ms).any fun x => x == 0) = true) := by
        intro hc
        rcases List.any_eq_true.mp hc with ⟨x, hx, hx0⟩
        rw [beq_iff_eq] at hx0
        exact h (hx0 ▸ hx)
      simp only [socks5_auth]
      by_cases hv : v ≠ 5
      · rw [if_pos hv]
      · by_cases hn : n < 1
        · rw [if_neg hv, if_pos hn]
        · rw [if_neg hv, if_neg hn, if_neg hany]

theorem start_of_auth_fail (authData req : List Nat)
    (h : socks5_auth authData = (false, [])) :
    start authData req = ⟨[], false, true, false, false⟩ := by
  simp [start, h]

theorem start_requestEntered_of_auth_success (authData req : List Nat)
    (h : socks5_auth authData = (true, [5, 0])) :
    (start authData req).requestEntered = true := by
  cases hreq : socks5_request req with
  | none => simp [start, h, hreq]
  | some r =>
    obtain ⟨w, da, dp, ret⟩ := r
    cases ret <;> simp [start, h, hreq]

/-- C4: a method-selection message of at least 3 bytes with version 5, method
count at least 1 and the no-auth method 0x00 among the advertised methods
(the first `n` method bytes) makes negotiation succeed with exactly the
2-byte reply 05 00, after which the request phase is entered. -/
theorem C4_method_selection_success (n m : Nat) (ms req : List Nat)
    (hn : 1 ≤ n) (hm : 0 ∈ (m :: ms).take n) :
    socks5_auth (5 :: n :: m :: ms) = (true, [5, 0]) ∧
    (start (5 :: n :: m :: ms) req).requestEntered = true := by
  have hs := socks5_auth_success n m ms hn (List.mem_of_mem_take hm)
  exact ⟨hs, start_requestEntered_of_auth_success _ _ hs⟩

/-- C4 witness: the end-to-end scenario message 05 01 00. -/
theorem C4_witness :
    (1 ≤ 1 ∧ 0 ∈ ([0] : List Nat).take 1) ∧
    socks5_auth (5 :: 1 :: 0 :: []) = (true, [5, 0]) ∧
    (start (5 :: 1 :: 0 :: []) [5, 1, 0, 3, 1, 97, 0, 80]).requestEntered = true :=
  ⟨⟨by decide, by decide⟩,
    (C4_method_selection_success 1 0 [] [5, 1, 0, 3, 1, 97, 0, 80] (by decide) (by decide)).1,
    (C4_method_selection_success 1 0 [] [5, 1, 0, 3, 1, 97, 0, 80] (by decide) (by decide)).2⟩

/-- C5 counterexample: the message 05 01 02 00 declares one method, 0x02, so
0x00 is absent from its advertised methods; the claim says negotiation must
fail with no reply, but the code scans the trailing byte 0x00 and succeeds,
writing the reply 05 00. -/
theorem C5_counterexample :
    0 ∉ (([5, 1, 2, 0] : List Nat).drop 2).take 1 ∧
    socks5_auth [5, 1, 2, 0] = (true, [5, 0]) := by
  exact ⟨by decide, rfl⟩

/-- C5 (amended): a method-selection message with fewer than 3 bytes, or
version byte ≠ 5, or method count < 1, or no 0x00 byte anywhere after the
first two bytes of the read, fails negotiation: no reply bytes are written,
the request phase is never entered (no further bytes are read), and the
connection is destroyed. -/
theorem C5_amended_auth_failure (data req : List Nat)
    (h : data.length < 3 ∨ data.getD 0 0 ≠ 5 ∨ data.getD 1 0 < 1 ∨ 0 ∉ data.drop 2) :
    socks5_auth data = (false, []) ∧
    start data req = ⟨[], false, true, false, false⟩ := by
  have hf := socks5_auth_failure data h
  exact ⟨hf, start_of_auth_fail data req hf⟩

/-- C5 witness: a message with version byte 4 is rejected with no reply and
the connection is destroyed without reading further. -/
theorem C5_witness :
    (([4, 1, 0] : List Nat).length < 3 ∨ ([4, 1, 0] : List Nat).getD 0 0 ≠ 5 ∨
      ([4, 1, 0] : List Nat).getD 1 0 < 1 ∨ 0 ∉ ([4, 1, 0] : List Nat).drop 2) ∧
    socks5_auth [4, 1, 0] = (false, []) ∧
    start [4, 1, 0] [5, 1, 0, 1] = ⟨[], false, true, false, false⟩ :=
  ⟨Or.inr (Or.inl (by decide)),
    (C5_amended_auth_failure [4, 1, 0] [5, 1, 0, 1] (Or.inr (Or.inl (by decide)))).1,
    (C5_amended_auth_failure [4, 1, 0] [5, 1, 0, 1] (Or.inr (Or.inl (by decide)))).2⟩

/-- C10: for messages passing the header checks (version 5, method count at
least 1), negotiation succeeds exactly when a 0x00 byte occurs anywhere in
the bytes after the first two — the declared method count does not bound the
scan.  Concretely, 05 02 03 07 00 declares two methods 0x03 0x07 (0x00
absent), yet succeeds because of the trailing 0x00 byte. -/
theorem C10_method_scan_unbounded (n m : Nat) (ms : List Nat) (hn : 1 ≤ n) :
    ((socks5_auth (5 :: n :: m :: ms)).1 = true ↔ 0 ∈ m :: ms) ∧
    (socks5_auth [5, 2, 3, 7, 0] = (true, [5, 0]) ∧
      0 ∉ (([5, 2, 3, 7, 0] : List Nat).drop 2).take 2) := by
  refine ⟨⟨?_, ?_⟩, rfl, by decide⟩
  · intro h
    by_contra hz
    have hf := socks5_auth_failure (5 :: n :: m :: ms)
      (Or.inr (Or.inr (Or.inr hz)))
    rw [hf] at h
    exact absurd h (by decide)
  · intro hz
    rw [socks5_auth_success n m ms hn hz]

/-- C10 witness: message 05 01 03 00 passes the header checks and succeeds
exactly because a 0x00 byte occurs after the first two bytes. -/
theorem C10_witness :
    (1 ≤ 1) ∧ ((socks5_auth (5 :: 1 :: 3 :: [0])).1 = true ↔ 0 ∈ 3 :: [0]) :=
  ⟨by decide, (C10_method_scan_unbounded 1 3 [0] (by decide)).1⟩

/-- C1: at the end-to-end CONNECT scenario (method selection 05 01 00, then
a domain-name CONNECT request whose address decodes successfully), the code
writes the 05 00 method reply and the 10-byte success reply, but
`socks5_request` falls off the end returning `None`, which `start` treats as
falsy: it calls `destroy()` immediately, closing the client stream.  No
connector is ever invoked (`remoteOpened = false`) and no relay is started,
contradicting the claim that the streams are handed to the Tunnel Relay. -/
theorem C1_success_path_destroys_immediately :
    start [5, 1, 0] (5 :: 1 :: 0 :: 3 :: 5 :: [97, 98, 99, 100, 101, 0, 80]) =
      ⟨[5, 0] ++ successReply, true, true, false, false⟩ ∧
    socks5_request (5 :: 1 :: 0 :: 3 :: 5 :: [97, 98, 99, 100, 101, 0, 80]) =
      some ⟨successReply, some (.bytes [97, 98, 99, 100, 101]), some 80, .vNone⟩ := by
  exact ⟨rfl, rfl⟩

/-- C2: for every IPv4 CONNECT request, the code decodes the dotted-quad
address but then computes the port as `struct.unpack("!H", data[:4])` — a
4-byte buffer for a 2-byte format — so `struct.error` is raised: the port is
never decoded (never the big-endian value of the last 2 bytes) and no reply
is written, contradicting the claim (and the code's own field comment). -/
theorem C2_ipv4_port_unpack_raises (a b c d p q : Nat) (rest : List Nat) :
    socks5_request (5 :: 1 :: 0 :: 1 :: a :: b :: c :: d :: p :: q :: rest) =
      some ⟨[], some (.str (inet_ntoa [a, b, c, d])), none, .vExc⟩ := by
  have h6 : readBytes 6 (a :: b :: c :: d :: p :: q :: rest) =
      some ([a, b, c, d, p, q], rest) :=
    readBytes_append 6 [a, b, c, d, p, q] rest rfl
  simp only [socks5_request]
  rw [if_neg (by decide), if_neg (by decide), if_neg (by decide), if_neg (by decide),
    if_pos (by decide), h6]
  rfl

/-- C3 counterexample: the request 05 01 00 02 has address-type byte 0x02,
which denotes none of IPv4 (0x01), IPv6 (0x04) or domain name (0x03).  The
claim says no success reply is written, but the code falls through all
address branches with `dest_addr = dest_port = None` and still writes the
10-byte success reply before the connection is torn down. -/
theorem C3_counterexample :
    socks5_request [5, 1, 0, 2] = some ⟨successReply, none, none, .vNone⟩ ∧
    successReply ≠ [] := by
  exact ⟨rfl, by decide⟩

/-- C3 (amended): for every CONNECT request whose masked address-type byte
(`ATYP & 0xF`, as the code computes it) is none of 1, 4 or 3, no destination
is decoded (`dest_addr` and `dest_port` stay `None`), but the generic
success reply 05 00 00 01 00 00 00 00 10 10 is still written before the
connection is torn down (the coroutine returns `None`, which `start` treats
as falsy). -/
theorem C3_amended_fallthrough (atyp : Nat) (rest : List Nat)
    (h1 : atyp &&& 15 ≠ 1) (h4 : atyp &&& 15 ≠ 4) (h3 : atyp &&& 15 ≠ 3) :
    socks5_request (5 :: 1 :: 0 :: atyp :: rest) =
      some ⟨successReply, none, none, .vNone⟩ := by
  simp only [socks5_request]
  rw [if_neg (by decide), if_neg (by decide), if_neg (by decide), if_neg (by decide),
    if_neg h1, if_neg h4, if_neg h3]

/-- C3 witness: address-type byte 0x00 takes the fall-through branch. -/
theorem C3_witness :
    ((0 : Nat) &&& 15 ≠ 1) ∧ ((0 : Nat) &&& 15 ≠ 4) ∧ ((0 : Nat) &&& 15 ≠ 3) ∧
    socks5_request (5 :: 1 :: 0 :: 0 :: ([] : List Nat)) =
      some ⟨successReply, none, none, .vNone⟩ :=
  ⟨by decide, by decide, by decide,
    C3_amended_fallthrough 0 [] (by decide) (by decide) (by decide)⟩

/-- C6: a version-5 request with command 3 (UDP_ASSOCIATE) always gets
exactly the reply 05 07 00 01 00 00 00 00 10 10; a version-5 request with
command 2 (BIND) always gets exactly 05 07 00 03 00 FF FF; both are rejected
(the coroutine returns `False`) and no upstream connection is ever opened. -/
theorem C6_bind_udp_fixed_replies (r1 a1 r2 a2 : Nat) (rest1 rest2 : List Nat) :
    socks5_request (5 :: 3 :: r1 :: a1 :: rest1) =
      some ⟨udpReply, none, none, .vFalse⟩ ∧
    socks5_request (5 :: 2 :: r2 :: a2 :: rest2) =
      some ⟨bindReply, none, none, .vFalse⟩ ∧
    udpReply = [5, 7, 0, 1, 0, 0, 0, 0, 16, 16] ∧
    bindReply = [5, 7, 0, 3, 0, 255, 255] ∧
    (start [5, 1, 0] (5 :: 3 :: r1 :: a1 :: rest1)).remoteOpened = false ∧
    (start [5, 1, 0] (5 :: 2 :: r2 :: a2 :: rest2)).remoteOpened = false := by
  have hu : socks5_request (5 :: 3 :: r1 :: a1 :: rest1) =
      some ⟨udpReply, none, none, .vFalse⟩ := by
    simp only [socks5_request]
    rw [if_neg (by decide), if_pos (by decide)]
  have hb : socks5_request (5 :: 2 :: r2 :: a2 :: rest2) =
      some ⟨bindReply, none, none, .vFalse⟩ := by
    simp only [socks5_request]
    rw [if_neg (by decide), if_neg (by decide), if_pos (by decide)]
  refine ⟨hu, hb, rfl, rfl, ?_, ?_⟩
  · simp [start, show socks5_auth [5, 1, 0] = (true, [5, 0]) from rfl, hu]
  · simp [start, show socks5_auth [5, 1, 0] = (true, [5, 0]) from rfl, hb]

/-- C7: for a domain-name CONNECT request, a length byte of 0 or above 128
is rejected (coroutine returns `False`, nothing written); for a length L
with 1 ≤ L ≤ 128 followed by L name bytes and 2 port bytes, the request is
accepted with the name equal to the L name bytes and the port equal to the
big-endian value of the 2 port bytes, and the success reply is written. -/
theorem C7_domain_length_rule (l p1 p2 : Nat) (name extra : List Nat)
    (hname : name.length = l) :
    (l = 0 ∨ 128 < l →
      socks5_request (5 :: 1 :: 0 :: 3 :: l :: (name ++ p1 :: p2 :: extra)) =
        some ⟨[], none, none, .vFalse⟩) ∧
    (1 ≤ l → l ≤ 128 →
      socks5_request (5 :: 1 :: 0 :: 3 :: l :: (name ++ p1 :: p2 :: extra)) =
        some ⟨successReply, some (.bytes name), some (p1 * 256 + p2), .vNone⟩) := by
  have hbranch : ∀ (tail : List Nat),
      socks5_request (5 :: 1 :: 0 :: 3 :: l :: tail) =
        (if l = 0 ∨ 128 < l then some ⟨[], none, none, .vFalse⟩
         else
           match readBytes (l + 2) tail with
           | none => none
           | some (data, _) =>
             match unpackH (data.drop l) with
             | none => some ⟨[], some (.bytes (data.take l)), none, .vExc⟩
             | some p =>
               some ⟨successReply, some (.bytes (data.take l)), some p, .vNone⟩) := by
    intro tail
    simp only [socks5_request]
    rw [if_neg (by decide), if_neg (by decide), if_neg (by decide), if_neg (by decide),
      if_neg (by decide), if_neg (by decide), if_pos (by decide)]
  constructor
  · intro h
    rw [hbranch, if_pos h]
  · intro h1 h2
    have hcond : ¬ (l = 0 ∨ 128 < l) := by omega
    have hlen : (name ++ [p1, p2]).length = l + 2 := by simp [hname]
    have hread : readBytes (l + 2) (name ++ p1 :: p2 :: extra) =
        some (name ++ [p1, p2], extra) := by
      rw [show name ++ p1 :: p2 :: extra = (name ++ [p1, p2]) ++ extra by simp]
      exact readBytes_append _ _ _ hlen
    rw [hbranch, if_neg hcond, hread]
    simp [List.drop_left' hname, List.take_left' hname, unpackH]

/-- C7 witness: length byte 5 followed by the 5 name bytes "abcde" and port
bytes 00 50 is accepted with port 80; the same request with length byte 0 is
rejected. -/
theorem C7_witness :
    (([97, 98, 99, 100, 101] : List Nat).length = 5 ∧ (1 ≤ 5 ∧ 5 ≤ 128)) ∧
    socks5_request (5 :: 1 :: 0 :: 3 :: 5 :: ([97, 98, 99, 100, 101] ++ 0 :: 80 :: [])) =
      some ⟨successReply, some (.bytes [97, 98, 99, 100, 101]), some 80, .vNone⟩ ∧
    (([] : List Nat).length = 0 ∧ ((0 : Nat) = 0 ∨ 128 < 0)) ∧
    socks5_request (5 :: 1 :: 0 :: 3 :: 0 :: (([] : List Nat) ++ 1 :: 2 :: [])) =
      some ⟨[], none, none, .vFalse⟩ :=
  ⟨⟨rfl, by decide, by decide⟩,
    (C7_domain_length_rule 5 0 80 [97, 98, 99, 100, 101] [] rfl).2 (by decide) (by decide),
    ⟨rfl, Or.inl rfl⟩,
    (C7_domain_length_rule 0 1 2 [] [] rfl).1 (Or.inl rfl)⟩

/-- C8: the tunnel close handlers guarantee close propagation.  When the
client stream terminates, `client_close` leaves the upstream closed (and
symmetrically for `upstream_close`); if the other stream was still open and
there is trailing data, the data is written to it before it is closed; and
when the other stream is already closed the handler is a no-op (the state is
unchanged, in particular nothing is written to a closed stream). -/
theorem C8_close_propagation (t : Tunnel) (d : List Nat) (o : Option (List Nat)) :
    (client_close t o).upstream.closed = true ∧
    (upstream_close t o).client.closed = true ∧
    (t.upstream.closed = false → d ≠ [] →
      (client_close t (some d)).upstream.written = t.upstream.written ++ d ∧
      (client_close t (some d)).upstream.closed = true) ∧
    (t.client.closed = false → d ≠ [] →
      (upstream_close t (some d)).client.written = t.client.written ++ d ∧
      (upstream_close t (some d)).client.closed = true) ∧
    (t.upstream.closed = true → client_close t o = t) ∧
    (t.client.closed = true → upstream_close t o = t) := by
  refine ⟨?_, ?_, ?_, ?_, ?_, ?_⟩
  · by_cases h : t.upstream.closed <;> by_cases h2 : truthy o = true <;>
      simp [client_close, sclose, swrite, h, h2]
  · by_cases h : t.client.closed <;> by_cases h2 : truthy o = true <;>
      simp [upstream_close, sclose, swrite, h, h2]
  · intro h hd
    have ht : truthy (some d) = true := by simpa [truthy] using hd
    simp [client_close, sclose, swrite, h, ht]
  · intro h hd
    have ht : truthy (some d) = true := by simpa [truthy] using hd
    simp [upstream_close, sclose, swrite, h, ht]
  · intro h
    simp [client_close, h]
  · intro h
    simp [upstream_close, h]

/-- C8 witness: on a concrete open tunnel the trailing byte is flushed to
the upstream before it is closed, and closing against an already-closed
upstream is a no-op. -/
theorem C8_witness :
    ((client_close ⟨⟨false, []⟩, ⟨false, [7]⟩⟩ (some [1])).upstream.written =
        [7] ++ [1] ∧
      (client_close ⟨⟨false, []⟩, ⟨false, [7]⟩⟩ (some [1])).upstream.closed = true) ∧
    ((upstream_close ⟨⟨false, [2]⟩, ⟨false, []⟩⟩ (some [9])).client.written =
        [2] ++ [9] ∧
      (upstream_close ⟨⟨false, [2]⟩, ⟨false, []⟩⟩ (some [9])).client.closed = true) ∧
    client_close ⟨⟨false, []⟩, ⟨true, []⟩⟩ none = ⟨⟨false, []⟩, ⟨true, []⟩⟩ ∧
    upstream_close ⟨⟨true, []⟩, ⟨false, []⟩⟩ none = ⟨⟨true, []⟩, ⟨false, []⟩⟩ :=
  ⟨(C8_close_propagation ⟨⟨false, []⟩, ⟨false, [7]⟩⟩ [1] none).2.2.1 rfl (by decide),
    (C8_close_propagation ⟨⟨false, [2]⟩, ⟨false, []⟩⟩ [9] none).2.2.2.1 rfl (by decide),
    (C8_close_propagation ⟨⟨false, []⟩, ⟨true, []⟩⟩ [1] none).2.2.2.2.1 rfl,
    (C8_close_propagation ⟨⟨true, []⟩, ⟨false, []⟩⟩ [1] none).2.2.2.2.2 rfl⟩

/-- C9: when the HTTP CONNECT upstream connect fails, `start_tunnel` calls
`future.result()`, which re-raises the connect error; the callback aborts
with nothing written to the client — no HTTP error status is surfaced, the
client observes a silent failure, contradicting the claim. -/
theorem C9_connect_failure_is_silent :
    start_tunnel (Except.error "connection refused") = ⟨"", false, true⟩ ∧
    "" ≠ "HTTP/1.0 200 Connection established\r\n\r\n" := by
  exact ⟨rfl, by decide⟩
